import Mathlib

/-!
Shallow embedding of the birding-conditions scoring engine from
src/config/birdingConditions.js of the birding-weather-dashboard
repository, together with theorems settling the specification claims.

Conventions of the embedding:
* JavaScript numbers are modelled as rationals (ℚ); every comparison in
  the source is a comparison of finite decimal values, faithfully
  represented by rational arithmetic.
* The accumulated score is an integer (the source only ever adds or
  subtracts integer constants from an integer baseline).
* JavaScript objects returned by the scorers become Lean structures;
  a function that can return null returns an Option.
* Trend / rating / season strings are kept as Lean Strings with the
  exact spellings used by the source.
-/

namespace Birding

/-- Result record produced by every per-category scorer:
score (already clamped), rating string and detail messages. -/
structure ScoreResult where
  score : Int
  rating : String
  details : List String
  deriving Repr, DecidableEq

/-- One sample of the pressure history: time in milliseconds since the
epoch (what subtracting two JavaScript Dates yields) and pressure in hPa. -/
structure PressurePoint where
  time : ℚ
  pressure : ℚ
  deriving Repr, DecidableEq

/-- One sample of the temperature history; the source only ever reads
the temp field of these objects. -/
structure TempPoint where
  temp : ℚ
  deriving Repr, DecidableEq

/-- Result of analyzePressureTrend: trend classification string, the
3-hour-normalized change, and a human readable description. -/
structure PressureTrendResult where
  trend : String
  change : ℚ
  description : String
  deriving Repr, DecidableEq

/-- Result of detectFrontPassage; the optional fields are present
exactly when detected is true. -/
structure FrontPassageResult where
  detected : Bool
  type : Option String := none
  message : Option String := none
  birdingImpact : Option String := none
  tempChange : Option ℚ := none
  deriving Repr, DecidableEq

/-- Result of assessFalloutRisk: categorical level and advisory message. -/
structure FalloutRisk where
  level : String
  message : String
  deriving Repr, DecidableEq

/-- Directional range test from the source (isWindInRange): inclusive
arc check, wrapping through 0°/360° when min exceeds max. -/
def isWindInRange (dir mn mx : ℚ) : Bool :=
  if mn ≤ mx then
    decide (dir ≥ mn) && decide (dir ≤ mx)
  else
    decide (dir ≥ mn) || decide (dir ≤ mx)

/-- Shared rating bucketing (getScoreRating in the source). -/
def getScoreRating (score : Int) : String :=
  if score ≥ 80 then "Excellent"
  else if score ≥ 65 then "Good"
  else if score ≥ 50 then "Fair"
  else if score ≥ 35 then "Poor"
  else "Unfavorable"

/-- Final clamp applied by every scorer: Math.max(0, Math.min(100, score)). -/
def clampScore (s : Int) : Int := max 0 (min 100 s)

/-- Conversion constant used by the source: visibility meters / 1609.34
gives miles. -/
def metersPerMile : ℚ := 160934 / 100

/-- Detail messages of the hawk-watch scorer (getHawkWatchDetails). -/
def getHawkWatchDetails (windDir windSpeed visibilityMiles : ℚ) : List String :=
  (if isWindInRange windDir 290 360 || isWindInRange windDir 0 45 then
      ["Ideal NW-NE wind direction"]
    else if isWindInRange windDir 250 70 then
      ["Favorable wind direction"]
    else
      ["Wind direction not optimal"]) ++
  (if windSpeed ≥ 10 ∧ windSpeed ≤ 25 then
      ["Good wind speed (" ++ toString windSpeed ++ " mph)"]
    else if windSpeed > 35 then ["Winds may be too strong"]
    else if windSpeed < 5 then ["Winds too light for good lift"]
    else []) ++
  (if visibilityMiles > 10 then ["Excellent visibility"]
    else if visibilityMiles < 2 then ["Poor visibility"]
    else [])

/-- Hawk Watch scorer (scoreHawkWatch): baseline 50, wind direction,
wind speed and visibility adjustments, clamped to [0,100]. -/
def scoreHawkWatch (windDir windSpeed visibility : ℚ) : ScoreResult :=
  let favorableDir := isWindInRange windDir 250 70
  let idealDir := isWindInRange windDir 290 360 || isWindInRange windDir 0 45
  let dirAdj : Int :=
    if idealDir then 20
    else if favorableDir then 10
    else -15
  let speedAdj : Int :=
    if windSpeed ≥ 10 ∧ windSpeed ≤ 25 then 20
    else if windSpeed ≥ 5 ∧ windSpeed < 10 then 10
    else if windSpeed > 25 ∧ windSpeed ≤ 35 then 5
    else if windSpeed > 35 then -20
    else if windSpeed < 5 then -10
    else 0
  let visibilityMiles := visibility / metersPerMile
  let visAdj : Int :=
    if visibilityMiles > 10 then 10
    else if visibilityMiles ≥ 5 then 5
    else if visibilityMiles < 2 then -20
    else 0
  let score := clampScore (50 + dirAdj + speedAdj + visAdj)
  { score := score
    rating := getScoreRating score
    details := getHawkWatchDetails windDir windSpeed visibilityMiles }

/-- Result of the JavaScript property read onshoreRanges[coastOrientation]
on the object literal inside scoreSeabirding: one of the three own range
properties, a truthy value inherited from Object.prototype, or undefined. -/
inductive OnshoreLookup where
  | found (mn mx : ℚ)
  | inherited
  | absent
  deriving Repr, DecidableEq

/-- Property names that a string-keyed read of a plain object literal
resolves on the Object.prototype chain; each yields a truthy value (a
built-in function, or the prototype object for proto). -/
def objectPrototypeKeys : List String :=
  ["constructor", "hasOwnProperty", "isPrototypeOf", "propertyIsEnumerable",
   "toLocaleString", "toString", "valueOf", "__proto__",
   "__defineGetter__", "__defineSetter__", "__lookupGetter__", "__lookupSetter__"]

/-- JavaScript property read onshoreRanges[coastOrientation]: the own
data properties east, west and gulf first, then the Object.prototype
chain, and undefined for every other key. -/
def onshoreRangesLookup (coastOrientation : String) : OnshoreLookup :=
  if coastOrientation = "east" then .found 45 180
  else if coastOrientation = "west" then .found 225 360
  else if coastOrientation = "gulf" then .found 135 270
  else if coastOrientation ∈ objectPrototypeKeys then .inherited
  else .absent

/-- Detail messages of the seabird scorer (getSeabirdDetails); the wind
direction argument is accepted but unused, as in the source. -/
def getSeabirdDetails (_windDir windSpeed : ℚ) (isOnshore : Bool) : List String :=
  (if isOnshore then ["Onshore winds pushing birds closer"]
    else ["Offshore winds - birds staying out"]) ++
  (if windSpeed ≥ 25 then ["Storm-force winds excellent for pelagics"]
    else if windSpeed ≥ 15 then ["Good wind speed for seabirding"]
    else if windSpeed < 10 then ["Light winds - birds likely offshore"]
    else [])

/-- Seabird/Coastal scorer (scoreSeabirding): baseline 40, onshore arc
chosen by coast orientation, wind speed and precipitation bonuses. The
range comes from onshoreRanges[coastOrientation] || onshoreRanges.east,
so only an undefined read (a key neither own nor on Object.prototype)
falls back to the east arc; a truthy inherited property is kept, its
min and max fields read as undefined, and every comparison of
isWindInRange against undefined is false, so isOnshore is false. -/
def scoreSeabirding (windDir windSpeed precipitation : ℚ)
    (coastOrientation : String := "east") : ScoreResult :=
  let range :=
    match onshoreRangesLookup coastOrientation with
    | OnshoreLookup.absent => OnshoreLookup.found 45 180
    | r => r
  let isOnshore :=
    match range with
    | OnshoreLookup.found mn mx => isWindInRange windDir mn mx
    | _ => false
  let dirAdj : Int := if isOnshore then 25 else -10
  let speedAdj : Int :=
    if windSpeed ≥ 25 then 25
    else if windSpeed ≥ 20 then 20
    else if windSpeed ≥ 15 then 15
    else if windSpeed ≥ 10 then 5
    else -10
  let precipAdj : Int :=
    if precipitation > 5 then 10
    else if precipitation > 0 then 5
    else 0
  let score := clampScore (40 + dirAdj + speedAdj + precipAdj)
  { score := score
    rating := getScoreRating score
    details := getSeabirdDetails windDir windSpeed isOnshore }

/-- Songbird Migration scorer (scoreSongbirdMigration): returns none
outside spring and fall, otherwise baseline 40 with seasonal wind arc
and pressure-trend adjustments. -/
def scoreSongbirdMigration (windDir : ℚ) (pressureTrend season : String) :
    Option ScoreResult :=
  if season ≠ "spring" ∧ season ≠ "fall" then none
  else
    let favorableDir :=
      if season = "spring" then isWindInRange windDir 135 270
      else isWindInRange windDir 270 45
    let dirPart : Int × String :=
      if favorableDir then (20, "Favorable winds for migration")
      else (-5, "Headwinds slowing migration")
    let pressPart : Int × String :=
      if pressureTrend = "rising-fast" then (20, "Post-front - migrants concentrated")
      else if pressureTrend = "rising" then (15, "Rising pressure - birds moving")
      else if pressureTrend = "falling" then (5, "Pre-front conditions")
      else if pressureTrend = "falling-fast" then (-5, "Storm approaching - birds grounded")
      else (10, "Steady conditions")
    let score := clampScore (40 + dirPart.1 + pressPart.1)
    some { score := score
           rating := getScoreRating score
           details := [dirPart.2, pressPart.2] }

/-- Songbird Activity scorer (scoreSongbirdActivity): baseline 40 with
time-of-day, weather-code, temperature and wind adjustments, each
contributing factor appending one message. -/
def scoreSongbirdActivity (temp weatherCode windSpeed : ℚ) (hour : ℚ := 7) :
    ScoreResult :=
  let isDawn := hour ≥ 5 ∧ hour < 9
  let isDusk := hour ≥ 17 ∧ hour < 20
  let isMidday := hour ≥ 12 ∧ hour < 15
  let timePart : Int × List String :=
    if isDawn then (15, ["Dawn chorus - peak activity"])
    else if isDusk then (10, ["Evening activity"])
    else if isMidday then (-10, ["Midday lull"])
    else (0, [])
  let weatherPart : Int × List String :=
    if weatherCode ≤ 2 then (25, ["Clear skies - birds active"])
    else if weatherCode = 3 then (20, ["Overcast - extended activity"])
    else if weatherCode ≥ 45 ∧ weatherCode < 50 then (10, ["Foggy - check sheltered areas"])
    else if weatherCode ≥ 50 ∧ weatherCode < 80 then (-5, ["Light precip - reduced activity"])
    else if weatherCode ≥ 80 then (-15, ["Heavy precip - birds sheltering"])
    else (0, [])
  let tempPart : Int × List String :=
    if temp ≥ 50 ∧ temp ≤ 75 then (15, ["Ideal temps for activity"])
    else if temp ≥ 40 ∧ temp < 50 then (10, ["Cool - morning activity best"])
    else if temp < 40 then (5, ["Cold - check feeders"])
    else if temp > 85 then (-10, ["Hot - early morning only"])
    else if temp > 75 then (5, ["Warm - avoid midday"])
    else (0, [])
  let windPart : Int × List String :=
    if windSpeed < 8 then (15, ["Calm winds - easy spotting"])
    else if windSpeed < 15 then (10, ["Light winds - good conditions"])
    else if windSpeed > 25 then (-15, ["Very windy - birds hunkered down"])
    else if windSpeed > 18 then (-5, ["Breezy - check sheltered spots"])
    else (0, [])
  let score := clampScore (40 + timePart.1 + weatherPart.1 + tempPart.1 + windPart.1)
  { score := score
    rating := getScoreRating score
    details := timePart.2 ++ weatherPart.2 ++ tempPart.2 ++ windPart.2 }

/-- Shorebird scorer (scoreShorebirds): baseline 40, fixed onshore arc
45°–180°, rain, visibility and wind adjustments. -/
def scoreShorebirds (windDir windSpeed precipLast6h visibility : ℚ) : ScoreResult :=
  let dirPart : Int × List String :=
    if isWindInRange windDir 45 180 then (25, ["Onshore winds"])
    else (-5, ["Offshore winds"])
  let rainPart : Int × List String :=
    if precipLast6h > 2 then (15, ["Recent rain - exposed mudflats"])
    else if precipLast6h > 0 then (10, ["Light recent rain"])
    else (0, [])
  let visibilityMiles := visibility / metersPerMile
  let visPart : Int × List String :=
    if visibilityMiles > 8 then (15, ["Good visibility"])
    else if visibilityMiles < 2 then (-10, ["Poor visibility"])
    else (0, [])
  let windPart : Int × List String :=
    if windSpeed < 15 then (10, ["Calm conditions for feeding"])
    else if windSpeed > 25 then (-10, ["Too windy"])
    else (0, [])
  let score := clampScore (40 + dirPart.1 + rainPart.1 + visPart.1 + windPart.1)
  { score := score
    rating := getScoreRating score
    details := dirPart.2 ++ rainPart.2 ++ visPart.2 ++ windPart.2 }

/-- Waterfowl scorer (scoreWaterfowl): baseline 40, temperature, wind,
visibility and pressure-trend adjustments; the low-visibility penalty
pushes no message, as in the source. -/
def scoreWaterfowl (temp windSpeed visibility : ℚ) (pressureTrend : String) :
    ScoreResult :=
  let tempPart : Int × List String :=
    if temp < 35 then (25, ["Prime waterfowl weather"])
    else if temp < 50 then (20, ["Cold temps moving ducks"])
    else if temp > 60 then (-10, ["Too warm for waterfowl activity"])
    else (0, [])
  let windPart : Int × List String :=
    if windSpeed ≥ 10 ∧ windSpeed ≤ 20 then (15, ["Good flight conditions"])
    else if windSpeed > 30 then (-10, ["Winds too strong"])
    else if windSpeed < 5 then (5, ["Calm - birds rafting"])
    else (0, [])
  let visibilityMiles := visibility / metersPerMile
  let visPart : Int × List String :=
    if visibilityMiles > 8 then (15, ["Clear skies"])
    else if visibilityMiles < 2 then (-5, [])
    else (0, [])
  let pressPart : Int × List String :=
    if pressureTrend = "falling" ∨ pressureTrend = "falling-fast" then
      (10, ["Storm pushing birds"])
    else (0, [])
  let score := clampScore (40 + tempPart.1 + windPart.1 + visPart.1 + pressPart.1)
  { score := score
    rating := getScoreRating score
    details := tempPart.2 ++ windPart.2 ++ visPart.2 ++ pressPart.2 }

/-- Owling scorer (scoreOwling): baseline 45, time-of-day dominant
factor, then wind, temperature, weather-code and humidity adjustments. -/
def scoreOwling (windSpeed temp weatherCode humidity : ℚ) (hour : ℚ := 21) :
    ScoreResult :=
  let isNight := hour ≥ 20 ∨ hour < 6
  let isTwilight := (hour ≥ 6 ∧ hour < 10) ∨ (hour ≥ 18 ∧ hour < 20)
  let isDaytime := hour ≥ 10 ∧ hour < 18
  let timePart : Int × List String :=
    if isNight then (30, ["Prime owling hours"])
    else if isTwilight then (10, ["Twilight - some owl activity"])
    else if isDaytime then (-40, ["Daytime - owls roosting"])
    else (0, [])
  let windPart : Int × List String :=
    if windSpeed < 8 then (20, ["Calm winds - owls active"])
    else if windSpeed > 15 then (-20, ["Too windy for owling"])
    else (5, [])
  let tempPart : Int × List String :=
    if temp ≥ 35 ∧ temp ≤ 55 then (15, ["Ideal temps for owling"])
    else if temp < 25 then (-10, ["Very cold - reduced activity"])
    else if temp > 65 then (-5, [])
    else (0, [])
  let codePart : Int × List String :=
    if weatherCode ≤ 1 then (20, ["Clear skies"])
    else if weatherCode ≤ 3 then (10, ["Partly cloudy"])
    else if weatherCode ≥ 50 then (-15, ["Precipitation - owls less active"])
    else (0, [])
  let humPart : Int × List String :=
    if humidity < 70 then (10, ["Low humidity - good acoustics"])
    else if humidity > 90 then (-5, ["High humidity"])
    else (0, [])
  let score := clampScore (45 + timePart.1 + windPart.1 + tempPart.1 + codePart.1 + humPart.1)
  { score := score
    rating := getScoreRating score
    details := timePart.2 ++ windPart.2 ++ tempPart.2 ++ codePart.2 ++ humPart.2 }

/-- Fallout Risk assessor (assessFalloutRisk): accumulates an integer
risk score from visibility, humidity, precipitation and pressure trend,
then classifies it into high / moderate / low with fixed messages. -/
def assessFalloutRisk (visibility humidity precipLast6h : ℚ)
    (pressureTrend : String) : FalloutRisk :=
  let riskScore : Int := 0
  let riskScore :=
    if visibility < 2000 then riskScore + 4
    else if visibility < 5000 then riskScore + 3
    else if visibility < 8000 then riskScore + 1
    else riskScore
  let riskScore :=
    if humidity > 90 then riskScore + 3
    else if humidity > 85 then riskScore + 2
    else if humidity > 75 then riskScore + 1
    else riskScore
  let riskScore :=
    if precipLast6h > 5 then riskScore + 3
    else if precipLast6h > 0 then riskScore + 2
    else riskScore
  let riskScore :=
    if pressureTrend = "falling-fast" then riskScore + 2
    else if pressureTrend = "falling" then riskScore + 1
    else riskScore
  if riskScore ≥ 7 then
    { level := "high", message := "Strong fallout potential - check local hotspots!" }
  else if riskScore ≥ 4 then
    { level := "moderate", message := "Moderate fallout conditions - migrants may be grounded" }
  else
    { level := "low", message := "Normal conditions - migrants likely moving through" }

/-- Pressure trend analyzer (analyzePressureTrend): requires at least
two points spanning at least one hour, then classifies the change
normalized to a 3-hour rate. -/
def analyzePressureTrend (pressureHistory : List PressurePoint) :
    PressureTrendResult :=
  if pressureHistory.length < 2 then
    { trend := "unknown", change := 0, description := "Insufficient data" }
  else
    let oldest := pressureHistory.headD ⟨0, 0⟩
    let newest := pressureHistory.getLastD ⟨0, 0⟩
    let hoursDiff := (newest.time - oldest.time) / 3600000
    if hoursDiff < 1 then
      { trend := "unknown", change := 0, description := "Insufficient time span" }
    else
      let totalChange := newest.pressure - oldest.pressure
      let changePer3Hr := totalChange / hoursDiff * 3
      if changePer3Hr ≥ 2 then
        { trend := "rising-fast", change := changePer3Hr, description := "Rising rapidly" }
      else if changePer3Hr ≥ 0.5 then
        { trend := "rising", change := changePer3Hr, description := "Rising" }
      else if changePer3Hr ≤ -2 then
        { trend := "falling-fast", change := changePer3Hr, description := "Falling rapidly" }
      else if changePer3Hr ≤ -0.5 then
        { trend := "falling", change := changePer3Hr, description := "Falling" }
      else
        { trend := "steady", change := changePer3Hr, description := "Steady" }

/-- Net temperature change over the last seven (or fewer) samples of a
temperature history, as computed inside detectFrontPassage from
tempHistory.slice(-7). -/
def recentTempChange (tempHistory : List TempPoint) : ℚ :=
  let recentTemps := tempHistory.drop (tempHistory.length - 7)
  (recentTemps.getLastD ⟨0⟩).temp - (recentTemps.headD ⟨0⟩).temp

/-- Frontal passage detector (detectFrontPassage): three rules checked
in order against the pressure trend and the recent temperature change;
the first matching rule produces the result. -/
def detectFrontPassage (pressureHistory : List PressurePoint)
    (tempHistory : List TempPoint) : FrontPassageResult :=
  let pressureTrend := analyzePressureTrend pressureHistory
  if tempHistory.length < 2 then { detected := false }
  else
    let recentTemps := tempHistory.drop (tempHistory.length - 7)
    if recentTemps.length < 2 then { detected := false }
    else
      let tempChange := recentTempChange tempHistory
      if (pressureTrend.trend = "falling" ∨ pressureTrend.trend = "falling-fast")
          ∧ tempChange < -5 then
        { detected := true
          type := some "cold"
          message := some "Cold front approaching - great conditions for hawk watching!"
          birdingImpact := some "positive"
          tempChange := some tempChange }
      else if (pressureTrend.trend = "falling" ∨ pressureTrend.trend = "falling-fast")
          ∧ tempChange > 5 then
        { detected := true
          type := some "warm"
          message := some "Warm front approaching - watch for fog and low clouds"
          birdingImpact := some "mixed"
          tempChange := some tempChange }
      else if pressureTrend.trend = "rising-fast" ∧ tempChange < -3 then
        { detected := true
          type := some "post-cold"
          message := some "Cold front passed - clear skies, good visibility expected"
          birdingImpact := some "positive"
          tempChange := some tempChange }
      else { detected := false }

/-- Pressure-chart color selection from src/ui/weatherView.js: compares
the analyzer trend against the underscore spelling falling_fast. -/
def trendColor (trend : String) : String :=
  if trend = "falling" ∨ trend = "falling_fast" then "var(--accent-orange)"
  else "var(--accent-blue)"

/-- Shared result invariant: the score lies in [0,100] and the rating
is the shared bucketing of that score. -/
def validResult (r : ScoreResult) : Prop :=
  0 ≤ r.score ∧ r.score ≤ 100 ∧ r.rating = getScoreRating r.score

lemma clampScore_nonneg (s : Int) : 0 ≤ clampScore s := by
  unfold clampScore; omega

lemma clampScore_le_100 (s : Int) : clampScore s ≤ 100 := by
  unfold clampScore; omega

lemma validResult_clamped (s : Int) (d : List String) :
    validResult { score := clampScore s
                  rating := getScoreRating (clampScore s)
                  details := d } :=
  ⟨clampScore_nonneg s, clampScore_le_100 s, rfl⟩

/-- C1: every scorer (hawk watch, seabirding, songbird migration when
it returns a result, songbird activity, shorebirds, waterfowl, owling)
returns a score in [0,100] together with the rating obtained by the
shared bucketing getScoreRating applied to that clamped score. -/
theorem claimC1_scorers_clamped_and_rated :
    (∀ windDir windSpeed visibility : ℚ,
        validResult (scoreHawkWatch windDir windSpeed visibility))
  ∧ (∀ (windDir windSpeed precipitation : ℚ) (coastOrientation : String),
        validResult (scoreSeabirding windDir windSpeed precipitation coastOrientation))
  ∧ (∀ (windDir : ℚ) (pressureTrend season : String) (r : ScoreResult),
        scoreSongbirdMigration windDir pressureTrend season = some r → validResult r)
  ∧ (∀ temp weatherCode windSpeed hour : ℚ,
        validResult (scoreSongbirdActivity temp weatherCode windSpeed hour))
  ∧ (∀ windDir windSpeed precipLast6h visibility : ℚ,
        validResult (scoreShorebirds windDir windSpeed precipLast6h visibility))
  ∧ (∀ (temp windSpeed visibility : ℚ) (pressureTrend : String),
        validResult (scoreWaterfowl temp windSpeed visibility pressureTrend))
  ∧ (∀ windSpeed temp weatherCode humidity hour : ℚ,
        validResult (scoreOwling windSpeed temp weatherCode humidity hour)) := by
  refine ⟨?_, ?_, ?_, ?_, ?_, ?_, ?_⟩
  · intro a b c; exact validResult_clamped _ _
  · intro a b c d; exact validResult_clamped _ _
  · intro wd pt s r h
    unfold scoreSongbirdMigration at h
    split at h
    · simp at h
    · have h2 := Option.some.inj h
      subst h2
      exact validResult_clamped _ _
  · intro a b c d; exact validResult_clamped _ _
  · intro a b c d; exact validResult_clamped _ _
  · intro a b c d; exact validResult_clamped _ _
  · intro a b c d e; exact validResult_clamped _ _

/-- C1 witness: the invariant instantiated at concrete inputs, for the
hawk-watch scorer and for the migration scorer result at wind 200°,
trend rising, season spring. -/
theorem claimC1_scorers_clamped_and_rated_witness :
    validResult (scoreHawkWatch 315 15 16093)
  ∧ validResult
      { score := 75
        rating := "Good"
        details := ["Favorable winds for migration", "Rising pressure - birds moving"] } :=
  ⟨claimC1_scorers_clamped_and_rated.1 315 15 16093,
   claimC1_scorers_clamped_and_rated.2.2.1 200 "rising" "spring"
     { score := 75
       rating := "Good"
       details := ["Favorable winds for migration", "Rising pressure - birds moving"] }
     (by decide)⟩

/-- C2: evaluating the songbird activity scorer at temperature 90°F,
weather code 0, wind 5 mph, hour 13 yields a score of exactly 60
(baseline 40, midday −10, clear +25, heat −10, calm wind +15), so the
score is not strictly below 60 as the specification asserts. -/
theorem claimC2_songbird_midday_heat_score_is_60 :
    (scoreSongbirdActivity 90 0 5 13).score = 60 ∧
    ¬ (scoreSongbirdActivity 90 0 5 13).score < 60 := by decide

/-- C3: the songbird migration scorer returns none when called with
season winter, for every wind direction and pressure-trend string. -/
theorem claimC3_migration_winter_returns_none :
    ∀ (windDir : ℚ) (pressureTrend : String),
      scoreSongbirdMigration windDir pressureTrend "winter" = none := by
  intro wd pt
  unfold scoreSongbirdMigration
  rw [if_pos]
  exact ⟨by decide, by decide⟩

/-- Reference pressure-trend analyzer, stated from the specification
wording of section 4.11: fewer than two points or a newest-minus-oldest
span under one hour gives unknown; otherwise changePer3Hours equals
(newest.pressure − oldest.pressure) / hoursSpan × 3, classified at the
thresholds 2.0 (rising-fast), 0.5 (rising), −2.0 (falling-fast), −0.5
(falling), else steady. Returned as the pair (trend, changePer3Hours). -/
def analyzePressureTrendSpec (history : List PressurePoint) : String × ℚ :=
  if history.length < 2 then ("unknown", 0)
  else
    let oldest := history.headD ⟨0, 0⟩
    let newest := history.getLastD ⟨0, 0⟩
    let hoursSpan := (newest.time - oldest.time) / 3600000
    if hoursSpan < 1 then ("unknown", 0)
    else
      let changePer3Hours := (newest.pressure - oldest.pressure) / hoursSpan * 3
      (if changePer3Hours ≥ 2 then "rising-fast"
       else if changePer3Hours ≥ 0.5 then "rising"
       else if changePer3Hours ≤ -2 then "falling-fast"
       else if changePer3Hours ≤ -0.5 then "falling"
       else "steady", changePer3Hours)

/-- C4: the implemented pressure-trend analyzer agrees with the
reference definition on both the trend classification and the 3-hour
normalized change, and the concrete sample pair 1000 hPa at T−6h /
1004 hPa at T gives changePer3Hours 2.0 and a rising or rising-fast
trend. -/
theorem claimC4_pressure_trend_matches_reference :
    (∀ history : List PressurePoint,
        (analyzePressureTrend history).trend = (analyzePressureTrendSpec history).1
      ∧ (analyzePressureTrend history).change = (analyzePressureTrendSpec history).2)
  ∧ (∀ t0 t1 : ℚ, t1 - t0 = 21600000 →
        (analyzePressureTrend [⟨t0, 1000⟩, ⟨t1, 1004⟩]).change = 2
      ∧ ((analyzePressureTrend [⟨t0, 1000⟩, ⟨t1, 1004⟩]).trend = "rising"
        ∨ (analyzePressureTrend [⟨t0, 1000⟩, ⟨t1, 1004⟩]).trend = "rising-fast")) := by
  constructor
  · intro history
    unfold analyzePressureTrend analyzePressureTrendSpec
    dsimp only
    split_ifs <;> exact ⟨rfl, rfl⟩
  · intro t0 t1 ht
    unfold analyzePressureTrend
    simp only [List.length_cons, List.length_nil, List.headD_cons, List.getLastD_cons,
      List.getLastD_nil]
    rw [ht]
    norm_num

/-- C4 witness: the concrete-sample part applied at times 0 and
21600000 milliseconds (a six hour span). -/
theorem claimC4_pressure_trend_matches_reference_witness :
    (21600000 : ℚ) - 0 = 21600000
  ∧ ((analyzePressureTrend [⟨0, 1000⟩, ⟨21600000, 1004⟩]).change = 2
    ∧ ((analyzePressureTrend [⟨0, 1000⟩, ⟨21600000, 1004⟩]).trend = "rising"
      ∨ (analyzePressureTrend [⟨0, 1000⟩, ⟨21600000, 1004⟩]).trend = "rising-fast")) :=
  ⟨by norm_num,
   claimC4_pressure_trend_matches_reference.2 0 21600000 (by norm_num)⟩

/-- C5: isWindInRange is the inclusive range check when min ≤ max and
the wrap-around disjunction when min > max, and it takes the stated
values on the concrete directions for the arc 350°–10°. -/
theorem claimC5_isWindInRange_semantics :
    (∀ d mn mx : ℚ,
        (mn ≤ mx → (isWindInRange d mn mx = true ↔ mn ≤ d ∧ d ≤ mx))
      ∧ (mn > mx → (isWindInRange d mn mx = true ↔ d ≥ mn ∨ d ≤ mx)))
  ∧ (isWindInRange 350 350 10 = true ∧ isWindInRange 355 350 10 = true
    ∧ isWindInRange 0 350 10 = true ∧ isWindInRange 5 350 10 = true
    ∧ isWindInRange 10 350 10 = true ∧ isWindInRange 11 350 10 = false
    ∧ isWindInRange 180 350 10 = false ∧ isWindInRange 349 350 10 = false) := by
  constructor
  · intro d mn mx
    constructor
    · intro h
      simp [isWindInRange, h, ge_iff_le]
    · intro h
      simp [isWindInRange, not_le.mpr h, ge_iff_le]
  · decide

/-- C5 witness: the non-wrapping case at direction 355 in [350,360] and
the wrapping case at direction 5 for the arc 350°–10°. -/
theorem claimC5_isWindInRange_semantics_witness :
    ((350:ℚ) ≤ 360 ∧ (isWindInRange 355 350 360 = true ↔ (350:ℚ) ≤ 355 ∧ (355:ℚ) ≤ 360))
  ∧ ((350:ℚ) > 10 ∧ (isWindInRange 5 350 10 = true ↔ (5:ℚ) ≥ 350 ∨ (5:ℚ) ≤ 10)) :=
  ⟨⟨by norm_num, (claimC5_isWindInRange_semantics.1 355 350 360).1 (by norm_num)⟩,
   ⟨by norm_num, (claimC5_isWindInRange_semantics.1 5 350 10).2 (by norm_num)⟩⟩

/-- C6: whenever the pressure history classifies as falling or
falling-fast and the temperature history has at least two points whose
last seven (or fewer) samples drop by strictly more than 5°F, the front
detector reports a detected cold front with positive birding impact;
the cold-front rule is the first of the three rules, so no later rule
can preempt it. -/
theorem claimC6_cold_front_detection
    (pressureHistory : List PressurePoint) (tempHistory : List TempPoint)
    (htrend : (analyzePressureTrend pressureHistory).trend = "falling"
            ∨ (analyzePressureTrend pressureHistory).trend = "falling-fast")
    (hlen : 2 ≤ tempHistory.length)
    (hdrop : recentTempChange tempHistory < -5) :
    detectFrontPassage pressureHistory tempHistory =
      { detected := true
        type := some "cold"
        message := some "Cold front approaching - great conditions for hawk watching!"
        birdingImpact := some "positive"
        tempChange := some (recentTempChange tempHistory) } := by
  unfold detectFrontPassage
  dsimp only
  rw [if_neg (by omega)]
  rw [if_neg (by simp only [List.length_drop]; omega)]
  rw [if_pos ⟨htrend, hdrop⟩]

/-- C6 witness: a six-hour pressure fall from 1010 to 1005 hPa (a
falling-fast classification) with a temperature drop of exactly 6°F. -/
theorem claimC6_cold_front_detection_witness :
    detectFrontPassage [⟨0, 1010⟩, ⟨21600000, 1005⟩] [⟨60⟩, ⟨54⟩] =
      { detected := true
        type := some "cold"
        message := some "Cold front approaching - great conditions for hawk watching!"
        birdingImpact := some "positive"
        tempChange := some (recentTempChange [⟨60⟩, ⟨54⟩]) } :=
  claimC6_cold_front_detection [⟨0, 1010⟩, ⟨21600000, 1005⟩] [⟨60⟩, ⟨54⟩]
    (Or.inr (by
      unfold analyzePressureTrend
      simp only [List.length_cons, List.length_nil, List.headD_cons, List.getLastD_cons,
        List.getLastD_nil]
      norm_num))
    (by decide)
    (by norm_num [recentTempChange, List.getLastD_cons, List.getLastD_nil, List.headD_cons])

/-- Specification-side fallout risk score of section 4.10: the sum of
four independent components, one per input. -/
def falloutVisComponent (visibility : ℚ) : Int :=
  if visibility < 2000 then 4
  else if visibility < 5000 then 3
  else if visibility < 8000 then 1
  else 0

/-- Humidity component of the specification-side fallout risk score. -/
def falloutHumidityComponent (humidity : ℚ) : Int :=
  if humidity > 90 then 3
  else if humidity > 85 then 2
  else if humidity > 75 then 1
  else 0

/-- Precipitation component of the specification-side fallout risk score. -/
def falloutPrecipComponent (precipLast6h : ℚ) : Int :=
  if precipLast6h > 5 then 3
  else if precipLast6h > 0 then 2
  else 0

/-- Pressure-trend component of the specification-side fallout risk score. -/
def falloutTrendComponent (pressureTrend : String) : Int :=
  if pressureTrend = "falling-fast" then 2
  else if pressureTrend = "falling" then 1
  else 0

/-- Sum of the four fallout risk components, as described by the claim. -/
def falloutRiskScoreSpec (visibility humidity precipLast6h : ℚ)
    (pressureTrend : String) : Int :=
  falloutVisComponent visibility + falloutHumidityComponent humidity +
    falloutPrecipComponent precipLast6h + falloutTrendComponent pressureTrend

lemma fallout_vis_step (x : Int) (v : ℚ) :
    (if v < 2000 then x + 4 else if v < 5000 then x + 3 else if v < 8000 then x + 1 else x)
      = x + falloutVisComponent v := by
  unfold falloutVisComponent; split_ifs <;> omega

lemma fallout_hum_step (x : Int) (h : ℚ) :
    (if h > 90 then x + 3 else if h > 85 then x + 2 else if h > 75 then x + 1 else x)
      = x + falloutHumidityComponent h := by
  unfold falloutHumidityComponent; split_ifs <;> omega

lemma fallout_precip_step (x : Int) (p : ℚ) :
    (if p > 5 then x + 3 else if p > 0 then x + 2 else x)
      = x + falloutPrecipComponent p := by
  unfold falloutPrecipComponent; split_ifs <;> omega

lemma fallout_trend_step (x : Int) (t : String) :
    (if t = "falling-fast" then x + 2 else if t = "falling" then x + 1 else x)
      = x + falloutTrendComponent t := by
  unfold falloutTrendComponent; split_ifs <;> omega

/-- C7: the fallout risk assessor classifies exactly the sum of the
four independent components at the thresholds 7 and 4, with the three
fixed advisory messages, and the concrete inputs visibility 1500 m,
humidity 92%, precipitation 6 mm, trend falling-fast give level high. -/
theorem claimC7_fallout_risk_classification :
    (∀ (visibility humidity precipLast6h : ℚ) (pressureTrend : String),
      assessFalloutRisk visibility humidity precipLast6h pressureTrend =
        (if falloutRiskScoreSpec visibility humidity precipLast6h pressureTrend ≥ 7 then
          { level := "high", message := "Strong fallout potential - check local hotspots!" }
        else if falloutRiskScoreSpec visibility humidity precipLast6h pressureTrend ≥ 4 then
          { level := "moderate"
            message := "Moderate fallout conditions - migrants may be grounded" }
        else
          { level := "low", message := "Normal conditions - migrants likely moving through" }))
  ∧ assessFalloutRisk 1500 92 6 "falling-fast" =
      { level := "high", message := "Strong fallout potential - check local hotspots!" } := by
  constructor
  · intro v h p t
    unfold assessFalloutRisk falloutRiskScoreSpec
    dsimp only
    rw [fallout_vis_step, fallout_hum_step, fallout_precip_step, fallout_trend_step]
    simp only [zero_add]
  · decide

/-- C8: the hawk-watch scorer at wind direction 315°, speed 15 mph and
visibility 16093 m returns a score of at least 80 and an Excellent or
Good rating. -/
theorem claimC8_hawk_watch_nw_wind :
    (scoreHawkWatch 315 15 16093).score ≥ 80
  ∧ ((scoreHawkWatch 315 15 16093).rating = "Excellent"
    ∨ (scoreHawkWatch 315 15 16093).rating = "Good") := by
  unfold scoreHawkWatch
  dsimp only
  norm_num [isWindInRange, metersPerMile, clampScore, getScoreRating, Int.max_def,
    Int.min_def]

/-- C9: the trend field of the pressure analyzer is always one of the
six hyphenated strings, never the underscore spelling falling_fast, and
the orange-color comparison in the weather view (which tests
falling_fast with an underscore) therefore fires exactly on the plain
falling trend. -/
theorem claimC9_trend_enum_hyphenated :
    ∀ pressureHistory : List PressurePoint,
      ((analyzePressureTrend pressureHistory).trend = "rising-fast"
        ∨ (analyzePressureTrend pressureHistory).trend = "rising"
        ∨ (analyzePressureTrend pressureHistory).trend = "steady"
        ∨ (analyzePressureTrend pressureHistory).trend = "falling"
        ∨ (analyzePressureTrend pressureHistory).trend = "falling-fast"
        ∨ (analyzePressureTrend pressureHistory).trend = "unknown")
    ∧ (analyzePressureTrend pressureHistory).trend ≠ "falling_fast"
    ∧ (trendColor (analyzePressureTrend pressureHistory).trend = "var(--accent-orange)"
        ↔ (analyzePressureTrend pressureHistory).trend = "falling") := by
  intro pressureHistory
  have h6 : (analyzePressureTrend pressureHistory).trend = "rising-fast"
      ∨ (analyzePressureTrend pressureHistory).trend = "rising"
      ∨ (analyzePressureTrend pressureHistory).trend = "steady"
      ∨ (analyzePressureTrend pressureHistory).trend = "falling"
      ∨ (analyzePressureTrend pressureHistory).trend = "falling-fast"
      ∨ (analyzePressureTrend pressureHistory).trend = "unknown" := by
    unfold analyzePressureTrend
    dsimp only
    split_ifs <;> simp
  rcases h6 with h | h | h | h | h | h <;> rw [h] <;> decide

/-- C10 counterexample: the orientation constructor lies outside
{east, west, gulf}, yet the scorer does not fall back to the east arc:
the Object.prototype read is truthy, so the onshore bonus is never
applied and the results differ (score 40 versus 75 at direction 100°). -/
theorem claimC10_seabirding_unknown_coast_counterexample :
    ("constructor" ≠ "east" ∧ "constructor" ≠ "west" ∧ "constructor" ≠ "gulf")
  ∧ scoreSeabirding 100 12 3 "constructor" ≠ scoreSeabirding 100 12 3 "east" := by
  decide

lemma seabirding_inherited_offshore (windDir windSpeed precipitation : ℚ)
    (co : String) (h : onshoreRangesLookup co = OnshoreLookup.inherited) :
    (scoreSeabirding windDir windSpeed precipitation co).details.head? =
      some "Offshore winds - birds staying out" := by
  unfold scoreSeabirding getSeabirdDetails
  rw [h]
  simp

lemma lookup_of_prototype_key (co : String) (h : co ∈ objectPrototypeKeys) :
    onshoreRangesLookup co = OnshoreLookup.inherited := by
  have hne : co ≠ "east" := by rintro rfl; revert h; decide
  have hnw : co ≠ "west" := by rintro rfl; revert h; decide
  have hng : co ≠ "gulf" := by rintro rfl; revert h; decide
  unfold onshoreRangesLookup
  rw [if_neg hne, if_neg hnw, if_neg hng, if_pos h]

/-- C10 amended: the seabird scorer with the orientation omitted uses
east, and an orientation outside {east, west, gulf} that is not a
property name inherited from Object.prototype behaves exactly as east;
but for an inherited name (constructor, toString, ...) the truthy
prototype property skips the fallback, every range comparison against
undefined is false, and the offshore branch applies regardless of the
wind direction. -/
theorem claimC10_seabirding_unknown_coast_falls_back_to_east :
    (∀ windDir windSpeed precipitation : ℚ,
        scoreSeabirding windDir windSpeed precipitation =
          scoreSeabirding windDir windSpeed precipitation "east")
  ∧ (∀ (windDir windSpeed precipitation : ℚ) (coastOrientation : String),
        coastOrientation ≠ "east" → coastOrientation ≠ "west" →
        coastOrientation ≠ "gulf" → coastOrientation ∉ objectPrototypeKeys →
        scoreSeabirding windDir windSpeed precipitation coastOrientation =
          scoreSeabirding windDir windSpeed precipitation "east")
  ∧ (∀ (windDir windSpeed precipitation : ℚ) (coastOrientation : String),
        coastOrientation ∈ objectPrototypeKeys →
        (scoreSeabirding windDir windSpeed precipitation coastOrientation).details.head? =
          some "Offshore winds - birds staying out") := by
  refine ⟨?_, ?_, ?_⟩
  · intro wd ws p
    rfl
  · intro wd ws p co h1 h2 h3 h4
    unfold scoreSeabirding onshoreRangesLookup
    simp [h1, h2, h3, h4]
  · intro wd ws p co h
    exact seabirding_inherited_offshore wd ws p co (lookup_of_prototype_key co h)

/-- C10 witness: the fallback at the unrecognized non-prototype
orientation north, and the offshore behavior at the inherited
orientation toString. -/
theorem claimC10_seabirding_unknown_coast_witness :
    scoreSeabirding 100 12 3 "north" = scoreSeabirding 100 12 3 "east"
  ∧ (scoreSeabirding 100 12 3 "toString").details.head? =
      some "Offshore winds - birds staying out" :=
  ⟨claimC10_seabirding_unknown_coast_falls_back_to_east.2.1 100 12 3 "north"
    (by decide) (by decide) (by decide) (by decide),
   claimC10_seabirding_unknown_coast_falls_back_to_east.2.2 100 12 3 "toString"
    (by decide)⟩

end Birding
